import Mathlib

/-!
Shallow embedding of `src/nlib/nlog.go` (package `nlib`), a thin
configuration layer over the zerolog structured logger and the lumberjack
rolling-file writer.  Pure formatting helpers (`colorize`, `colorizeBoth`,
`defaultFormatLevel`, `defaultCaller`, `defaultTimestamp`) become Lean
functions; the environment the Go code reads (the `NO_COLOR` variable, the
working directory, `filepath.Rel`, the `os.MkdirAll` outcome, the wall
clock) is passed explicitly as parameters.  `NewLog` is modelled by the
observable data it produces: the ordered list of console-writer adapters
handed to `io.MultiWriter`, the startup record it emits, and the records
the fallback default logger receives.  Go strings are modelled as Lean
`String`s and byte-level operations as character-level ones; all string
data exercised here is ASCII, where the two views agree.
-/

namespace NLib

/-- Go `interface{}` value as it reaches the console-writer formatters:
a string, the nil interface, or a non-nil non-string value.  A non-nil
non-string value is represented by the string `fmt.Sprintf("%s", v)`
renders for it; every rendering is realizable (e.g. by a `[]byte` holding
exactly those bytes), so quantifying over `rendering` covers all such
values. -/
inductive GoVal where
  | str (s : String)
  | nilv
  | other (rendering : String)
deriving DecidableEq

/-- Go `strings.ToUpper`, modelled characterwise.  On ASCII data (all the
canonical level tokens and the inputs exercised here) Go's byte-level
upper-casing agrees with the character map. -/
def goToUpper (s : String) : String := String.mk (s.data.map Char.toUpper)

/-- Go string slicing `s[0:n]`, modelled as taking the first `n`
characters (identical to the byte slice on ASCII data). -/
def takeChars (s : String) (n : Nat) : String := String.mk (s.data.take n)

/-- Go `len(s)` on a string, modelled as the character count (equal to the
byte count on ASCII data). -/
def strLen (s : String) : Nat := s.data.length

/-- Color constants from nlog.go lines 79-90 (`colorBlack = iota + 30` and
following). -/
def colorBlack : Nat := 30

def colorRed : Nat := 31

def colorGreen : Nat := 32

def colorYellow : Nat := 33

def colorBlue : Nat := 34

def colorMagenta : Nat := 35

def colorCyan : Nat := 36

def colorWhite : Nat := 37

def colorBold : Nat := 1

def colorDarkGray : Nat := 90

/-- zerolog's `LevelTraceValue` constant (external collaborator). -/
def LevelTraceValue : String := "trace"

/-- zerolog's `LevelDebugValue` constant. -/
def LevelDebugValue : String := "debug"

/-- zerolog's `LevelInfoValue` constant. -/
def LevelInfoValue : String := "info"

/-- zerolog's `LevelWarnValue` constant. -/
def LevelWarnValue : String := "warn"

/-- zerolog's `LevelErrorValue` constant. -/
def LevelErrorValue : String := "error"

/-- zerolog's `LevelFatalValue` constant. -/
def LevelFatalValue : String := "fatal"

/-- zerolog's `LevelPanicValue` constant. -/
def LevelPanicValue : String := "panic"

/-- `colorize` from nlog.go: wraps `s` in pipes, prefixed by the ANSI
escape for code `c` unless disabled.  `env` models the value
`os.Getenv("NO_COLOR")` returns at the moment of the call (`""` when the
variable is unset); a non-empty value forces `disabled`.  The Go parameter
`s` is `interface{}` but every call site passes a string, for which the
`%s` and `%v` verbs render identically. -/
def colorize (s : String) (c : Nat) (disabled : Bool) (env : String) : String :=
  let disabled := if env ≠ "" then true else disabled
  if disabled then "|" ++ s ++ "|"
  else "\x1b[" ++ toString c ++ "m|" ++ s ++ "|\x1b[0m"

/-- `colorizeBoth` from nlog.go: like `colorize` with two ANSI codes
(`\x1b[c1m\x1b[c2m|s|\x1b[0m`), same `NO_COLOR` override. -/
def colorizeBoth (s : String) (c1 : Nat) (c2 : Nat) (disabled : Bool) (env : String) : String :=
  let disabled := if env ≠ "" then true else disabled
  if disabled then "|" ++ s ++ "|"
  else "\x1b[" ++ toString c1 ++ "m\x1b[" ++ toString c2 ++ "m|" ++ s ++ "|\x1b[0m"

/-- The closure returned by `defaultFormatLevel(noColor)` in nlog.go.
String inputs go through the `switch`; the nil interface maps to `???`;
any other value is rendered with `%s`, upper-cased and sliced `[0:3]`.
The slice panics when the upper-cased rendering is shorter than 3 bytes;
the panic is modelled by `none`, a normal return by `some`. -/
def defaultFormatLevel (noColor : Bool) (env : String) (i : GoVal) : Option String :=
  match i with
  | .str ll =>
      some (if ll = LevelTraceValue then colorize "TRC" colorMagenta noColor env
        else if ll = LevelDebugValue then colorize "DBG" colorYellow noColor env
        else if ll = LevelInfoValue then colorize "INF" colorGreen noColor env
        else if ll = LevelWarnValue then colorize "WRN" colorRed noColor env
        else if ll = LevelErrorValue then colorizeBoth "ERR" colorRed colorBold noColor env
        else if ll = LevelFatalValue then colorizeBoth "FTL" colorRed colorBold noColor env
        else if ll = LevelPanicValue then colorizeBoth "PNC" colorRed colorBold noColor env
        else colorize ll colorBold noColor env)
  | .nilv => some (colorize "???" colorBold noColor env)
  | .other r =>
      if 3 ≤ strLen (goToUpper r) then some (takeChars (goToUpper r) 3)
      else none

/-- Go `fmt.Sprintf("%26s", s)`: right-justify `s` with spaces to a
minimum width of `w` runes (no truncation when longer). -/
def padLeft (w : Nat) (s : String) : String :=
  String.mk (List.replicate (w - strLen s) ' ') ++ s

/-- The caller-string resolution step of `defaultCaller`'s closure:
when the caller string is non-empty and both `os.Getwd` (modelled by
`wd`, `none` on error) and `filepath.Rel` (modelled by `rel`, `none` on
error) succeed, the relative path replaces the caller; otherwise the
original string is kept. -/
def resolveCaller (wd : Option String) (rel : String → String → Option String)
    (caller : String) : String :=
  if 0 < strLen caller then
    match wd with
    | some cwd =>
        match rel cwd caller with
        | some r => r
        | none => caller
    | none => caller
  else caller

/-- The closure returned by `defaultCaller(noColor)` in nlog.go: a
non-string input leaves the caller string empty, the resolution step
above runs, and the result is rendered with `fmt.Sprintf("%26s >", ...)`.
The `noColor` parameter is taken but unused, as in the source. -/
def defaultCaller (noColor : Bool) (wd : Option String)
    (rel : String → String → Option String) (i : GoVal) : String :=
  padLeft 26 (resolveCaller wd rel
    (match i with
     | .str cc => cc
     | _ => "")) ++ " >"

/-- Model of the external `filepath.Rel` on the inputs this development
exercises: when `target` is literally `base ++ "/" ++ rest`, the relative
path is `rest`; all other inputs are mapped to `none` (the error /
fallback path).  The real `filepath.Rel` succeeds on more inputs; the
claims here only depend on this fragment. -/
def relUnderBase (base target : String) : Option String :=
  if target.data.take (base.data.length + 1) = base.data ++ ['/'] then
    some (String.mk (target.data.drop (base.data.length + 1)))
  else none

/-- Wall-clock instant as `defaultTimestamp` consumes it: the `Hour()`,
`Minute()` and `Second()` components of `time.Now().Local()` and the
epoch milliseconds `UnixMilli()` (taken non-negative: the clock is at or
after the Unix epoch). -/
structure GoTime where
  hour : Nat
  minute : Nat
  second : Nat
  unixMilli : Nat
deriving DecidableEq

/-- Go `fmt.Sprintf("%02d", n)` for a natural number. -/
def pad2 (n : Nat) : String := if n < 10 then "0" ++ toString n else toString n

/-- Go `fmt.Sprintf("%03d", n)` for a natural number. -/
def pad3 (n : Nat) : String :=
  if n < 10 then "00" ++ toString n
  else if n < 100 then "0" ++ toString n
  else toString n

/-- The closure returned by `defaultTimestamp()` in nlog.go: it reads the
wall clock (`now`, the `time.Now().Local()` observed at the moment of the
call) and formats `HH:MM:SS.mmm`; its argument `i` (the record's
timestamp field) is taken but never used, as in the source. -/
def defaultTimestamp (now : GoTime) (i : GoVal) : String :=
  pad2 now.hour ++ ":" ++ pad2 now.minute ++ ":" ++ pad2 now.second ++ "." ++
    pad3 (now.unixMilli % 1000)

/-- `NLogConfig` from nlog.go. -/
structure NLogConfig where
  OutputConsole : Bool
  OutputFile : Bool
  LogPath : String
  LogFile : String
  MaxSize : Int
  MaxBackups : Int
  MaxAge : Int
deriving DecidableEq

/-- An output sink handed to a console-writer adapter: either the
lumberjack rolling-file writer (its `Filename` is `path.Join` of the two
string components, delegated to the external library and kept unjoined
here) or the process standard-error stream. -/
inductive Sink where
  | rollingFile (dir file : String) (maxBackups maxSize maxAge : Int)
  | stderr
deriving DecidableEq

/-- A `zerolog.ConsoleWriter` as `NewLog` builds it: only the `Out` field
varies between the two call sites (`none` models a nil `io.Writer`); the
three formatter fields are always set to `defaultTimestamp()`,
`defaultCaller(false)` and `defaultFormatLevel(false)` and are therefore
not repeated per writer. -/
structure ConsoleWriter where
  out : Option Sink
deriving DecidableEq

/-- A structured field value: zerolog's `Bool`, `Str` and `Int` field
constructors as used in nlog.go. -/
inductive FieldVal where
  | boolV (b : Bool)
  | strV (s : String)
  | intV (i : Int)
deriving DecidableEq

/-- A log record as the wrapper emits it: severity level, the structured
key/value pairs attached before `Msg`, and the message.  The automatic
timestamp/caller fields zerolog adds are external and omitted. -/
structure LogRecord where
  level : String
  fields : List (String × FieldVal)
  msg : String
deriving DecidableEq

/-- `newRollingFile` from nlog.go.  `mkdirAll` models the outcome of
`os.MkdirAll(config.LogPath, 0744)` (`Except.error e` carries the error's
rendering).  On failure the function logs through the fallback default
logger (`log.Error()...`) and returns the nil writer, modelled by
`none`; the second component collects the fallback-logger records. -/
def newRollingFile (mkdirAll : Except String Unit) (config : NLogConfig) :
    Option Sink × List LogRecord :=
  match mkdirAll with
  | .error e =>
      (none,
       [{ level := "error",
          fields := [("error", FieldVal.strV e), ("path", FieldVal.strV config.LogPath)],
          msg := "can't create log directory" }])
  | .ok _ =>
      (some (Sink.rollingFile config.LogPath config.LogFile
        config.MaxBackups config.MaxSize config.MaxAge), [])

/-- The logger handle `NewLog` returns, identified by the ordered list of
console-writer adapters its `io.MultiWriter` fans out to. -/
structure NLog where
  writers : List ConsoleWriter
deriving DecidableEq

/-- Everything observable about one `NewLog` call: the returned handle,
the startup records emitted through the new logger, and the records the
fallback default logger received. -/
structure NewLogResult where
  handle : NLog
  startup : List LogRecord
  fallback : List LogRecord
deriving DecidableEq

/-- The startup record nlog.go lines 52-59 emit: one `Info()` event with
the seven configuration fields in source order and message
`logging configured`. -/
def startupRecord (config : NLogConfig) : LogRecord :=
  { level := "info",
    fields := [("fileLogging", FieldVal.boolV config.OutputFile),
               ("consoleLogging", FieldVal.boolV config.OutputConsole),
               ("logPath", FieldVal.strV config.LogPath),
               ("logFile", FieldVal.strV config.LogFile),
               ("maxSizeMB", FieldVal.intV config.MaxSize),
               ("maxBackup", FieldVal.intV config.MaxBackups),
               ("maxAgeInDays", FieldVal.intV config.MaxAge)],
    msg := "logging configured" }

/-- `NewLog` from nlog.go: append the file adapter (wrapping whatever
`newRollingFile` returned, nil included) when file output is enabled,
then the stderr adapter when console output is enabled, build the logger
over the fan-out of that list, and emit the startup record. -/
def NewLog (mkdirAll : Except String Unit) (config : NLogConfig) : NewLogResult :=
  let fileStep : List ConsoleWriter × List LogRecord :=
    if config.OutputFile then
      let rf := newRollingFile mkdirAll config
      ([{ out := rf.1 }], rf.2)
    else ([], [])
  let writers : List ConsoleWriter :=
    fileStep.1 ++ (if config.OutputConsole then [{ out := some Sink.stderr }] else [])
  { handle := { writers := writers },
    startup := [startupRecord config],
    fallback := fileStep.2 }

/-- `io.MultiWriter(ws...).Write(p)`: write `p` to each sink in order,
stopping at the first error or short write; with every sink done (in
particular with zero sinks) return `p`'s length and no error. -/
def multiWrite (ws : List (List UInt8 → Except String Nat)) (p : List UInt8) :
    Except String Nat :=
  match ws with
  | [] => .ok p.length
  | w :: rest =>
      match w p with
      | .error e => .error e
      | .ok n => if n = p.length then multiWrite rest p else .error "short write"

/-- Configuration with both sinks disabled, used as a concrete instance. -/
def cfgOff : NLogConfig :=
  { OutputConsole := false, OutputFile := false, LogPath := "", LogFile := "",
    MaxSize := 0, MaxBackups := 0, MaxAge := 0 }

/-- Configuration with both sinks enabled, used as a concrete instance for
the directory-creation failure path. -/
def cfgFileOn : NLogConfig :=
  { OutputConsole := true, OutputFile := true, LogPath := "/data/logs",
    LogFile := "app.log", MaxSize := 10, MaxBackups := 3, MaxAge := 7 }

theorem take_len_succ_append (l : List Char) (c : Char) (r : List Char) :
    (l ++ c :: r).take (l.length + 1) = l ++ [c] := by
  induction l with
  | nil => simp
  | cons a t ih => simp [ih]

theorem drop_len_succ_append (l : List Char) (c : Char) (r : List Char) :
    (l ++ c :: r).drop (l.length + 1) = r := by
  induction l with
  | nil => simp
  | cons a t ih => simp [ih]

theorem colorize_of_env_ne (s : String) (c : Nat) (d : Bool) (env : String)
    (h : env ≠ "") : colorize s c d env = "|" ++ s ++ "|" := by
  simp [colorize, h]

theorem colorizeBoth_of_env_ne (s : String) (c1 c2 : Nat) (d : Bool) (env : String)
    (h : env ≠ "") : colorizeBoth s c1 c2 d env = "|" ++ s ++ "|" := by
  simp [colorizeBoth, h]

set_option maxRecDepth 4096 in
theorem pad3_strLen : ∀ n : Nat, n < 1000 → strLen (pad3 n) = 3 := by decide

/-- Claim C4: with coloring enabled (`noColor = false`) and `NO_COLOR`
unset (`env = ""`), each of the seven canonical level tokens formats to
its fixed 3-letter uppercase abbreviation wrapped in pipes with the
specified ANSI color: TRC magenta, DBG yellow, INF green, WRN red, and
ERR, FTL, PNC red plus bold. -/
theorem C4_canonical_level_abbreviations :
    defaultFormatLevel false "" (GoVal.str LevelTraceValue) = some "\x1b[35m|TRC|\x1b[0m" ∧
    defaultFormatLevel false "" (GoVal.str LevelDebugValue) = some "\x1b[33m|DBG|\x1b[0m" ∧
    defaultFormatLevel false "" (GoVal.str LevelInfoValue) = some "\x1b[32m|INF|\x1b[0m" ∧
    defaultFormatLevel false "" (GoVal.str LevelWarnValue) = some "\x1b[31m|WRN|\x1b[0m" ∧
    defaultFormatLevel false "" (GoVal.str LevelErrorValue) = some "\x1b[31m\x1b[1m|ERR|\x1b[0m" ∧
    defaultFormatLevel false "" (GoVal.str LevelFatalValue) = some "\x1b[31m\x1b[1m|FTL|\x1b[0m" ∧
    defaultFormatLevel false "" (GoVal.str LevelPanicValue) = some "\x1b[31m\x1b[1m|PNC|\x1b[0m" := by
  decide

/-- Claim C9: the level formatter is not total.  The Go value `[]byte("ab")`
is non-nil, not a string, and its `%s` rendering `"ab"` upper-cases to a
2-byte string, so the `[0:3]` slice is out of range and the call panics
(modelled by `none`). -/
theorem C9_level_formatter_not_total :
    defaultFormatLevel false "" (GoVal.other "ab") = none := by decide

/-- Claim C2 counterexample: the unrecognized string token `"custom"` is
returned verbatim in bold pipes (`ESC[1m|custom|ESC[0m`), not as its
uppercased first three characters `CUS` as the claim states. -/
theorem C2_counterexample :
    defaultFormatLevel false "" (GoVal.str "custom") = some "\x1b[1m|custom|\x1b[0m" ∧
    defaultFormatLevel false "" (GoVal.str "custom") ≠ some "\x1b[1m|CUS|\x1b[0m" ∧
    defaultFormatLevel false "" (GoVal.str "custom") ≠ some "|CUS|" := by
  refine ⟨by decide, by decide, by decide⟩

/-- Claim C2 as amended: a string token outside the seven canonical level
tokens is returned verbatim (no truncation, no upper-casing) wrapped by
`colorize` with the bold code only. -/
theorem C2_amended_unrecognized_verbatim_bold (ll : String) (noColor : Bool) (env : String)
    (h : ll ∉ [LevelTraceValue, LevelDebugValue, LevelInfoValue, LevelWarnValue,
               LevelErrorValue, LevelFatalValue, LevelPanicValue]) :
    defaultFormatLevel noColor env (GoVal.str ll) = some (colorize ll colorBold noColor env) := by
  simp only [List.mem_cons, List.not_mem_nil, or_false, not_or] at h
  obtain ⟨h1, h2, h3, h4, h5, h6, h7⟩ := h
  simp only [defaultFormatLevel, if_neg h1, if_neg h2, if_neg h3, if_neg h4,
    if_neg h5, if_neg h6, if_neg h7]

theorem C2_witness :
    "custom" ∉ [LevelTraceValue, LevelDebugValue, LevelInfoValue, LevelWarnValue,
                LevelErrorValue, LevelFatalValue, LevelPanicValue] ∧
    defaultFormatLevel false "" (GoVal.str "custom") =
      some (colorize "custom" colorBold false "") :=
  ⟨by decide, C2_amended_unrecognized_verbatim_bold "custom" false "" (by decide)⟩

/-- Claim C3 counterexample: the non-nil non-string value `[]byte("hello")`
(rendering `"hello"`) formats to `HEL`, not to `???` in bold pipes as the
claim states for every non-string input. -/
theorem C3_counterexample :
    defaultFormatLevel false "" (GoVal.other "hello") = some "HEL" ∧
    defaultFormatLevel false "" (GoVal.other "hello") ≠ some "\x1b[1m|???|\x1b[0m" ∧
    defaultFormatLevel false "" (GoVal.other "hello") ≠ some "|???|" := by
  refine ⟨by decide, by decide, by decide⟩

/-- Claim C3 as amended: only the nil input formats to `???` in bold-only
wrapping; a non-nil non-string input instead yields the uppercased first
three characters of its `%s` rendering with no wrapping at all (and
panics when that rendering is shorter than three bytes). -/
theorem C3_amended_nil_vs_nonstring (noColor : Bool) (env : String) (r : String)
    (h : 3 ≤ strLen (goToUpper r)) :
    defaultFormatLevel noColor env GoVal.nilv = some (colorize "???" colorBold noColor env) ∧
    defaultFormatLevel noColor env (GoVal.other r) = some (takeChars (goToUpper r) 3) := by
  exact ⟨rfl, by simp [defaultFormatLevel, h]⟩

theorem C3_witness :
    3 ≤ strLen (goToUpper "hello") ∧
    (defaultFormatLevel false "" GoVal.nilv = some (colorize "???" colorBold false "") ∧
     defaultFormatLevel false "" (GoVal.other "hello") =
       some (takeChars (goToUpper "hello") 3)) :=
  ⟨by decide, C3_amended_nil_vs_nonstring false "" "hello" (by decide)⟩

/-- Claim C5 counterexample: with `NO_COLOR` set to `"x"`, the non-nil
non-string input with rendering `"hello"` formats to `HEL`, which is not
of the plain pipe-wrapped `|ABC|` form the claim asserts for every level
input. -/
theorem C5_counterexample :
    defaultFormatLevel false "x" (GoVal.other "hello") = some "HEL" ∧
    ∀ body : String, ("HEL" : String) ≠ "|" ++ body ++ "|" := by
  refine ⟨by decide, ?_⟩
  intro body hbody
  have hdata : ("HEL" : String).data = ("|" ++ body ++ "|" : String).data := by
    rw [hbody]
  rw [String.data_append, String.data_append] at hdata
  have h1 : ("|" : String).data = ['|'] := rfl
  have h2 : ("HEL" : String).data = ['H', 'E', 'L'] := rfl
  rw [h1, h2] at hdata
  rw [List.cons_append, List.nil_append, List.cons_append] at hdata
  injection hdata with hhd htl
  exact absurd hhd (by decide)

/-- Claim C5 as amended: a non-empty `NO_COLOR` value always wins over the
caller-supplied coloring preference — the formatter's output is what it
would be with coloring disabled — and for every string or nil input that
output is the plain pipe-wrapped form with no escape codes added; non-nil
non-string inputs bypass the colorizer entirely and are returned without
pipe wrapping. -/
theorem C5_amended_no_color_override (noColor : Bool) (env : String) (i : GoVal)
    (h : env ≠ "") :
    defaultFormatLevel noColor env i = defaultFormatLevel true env i ∧
    (∀ ll, i = GoVal.str ll →
      ∃ body, defaultFormatLevel noColor env i = some ("|" ++ body ++ "|")) ∧
    (i = GoVal.nilv → defaultFormatLevel noColor env i = some "|???|") := by
  cases i with
  | str ll =>
      refine ⟨?_, ?_, ?_⟩
      · simp only [defaultFormatLevel, colorize_of_env_ne _ _ _ _ h,
          colorizeBoth_of_env_ne _ _ _ _ _ h]
      · intro l2 hl2
        cases hl2
        simp only [defaultFormatLevel, colorize_of_env_ne _ _ _ _ h,
          colorizeBoth_of_env_ne _ _ _ _ _ h]
        split_ifs <;> exact ⟨_, rfl⟩
      · intro hnil
        exact absurd hnil (by simp)
  | nilv =>
      refine ⟨?_, ?_, ?_⟩
      · simp only [defaultFormatLevel, colorize_of_env_ne _ _ _ _ h]
      · intro l2 hl2
        exact absurd hl2 (by simp)
      · intro _
        simp only [defaultFormatLevel, colorize_of_env_ne _ _ _ _ h]
        rfl
  | other r =>
      refine ⟨rfl, ?_, ?_⟩
      · intro l2 hl2
        exact absurd hl2 (by simp)
      · intro hnil
        exact absurd hnil (by simp)

theorem C5_witness :
    ("x" : String) ≠ "" ∧
    (defaultFormatLevel false "x" (GoVal.str LevelTraceValue) =
       defaultFormatLevel true "x" (GoVal.str LevelTraceValue) ∧
     (∀ ll, GoVal.str LevelTraceValue = GoVal.str ll →
       ∃ body, defaultFormatLevel false "x" (GoVal.str LevelTraceValue) =
         some ("|" ++ body ++ "|")) ∧
     (GoVal.str LevelTraceValue = GoVal.nilv →
       defaultFormatLevel false "x" (GoVal.str LevelTraceValue) = some "|???|")) :=
  ⟨by decide, C5_amended_no_color_override false "x" (GoVal.str LevelTraceValue) (by decide)⟩

/-- Claim C6: the caller formatter resolves a string input to a
working-directory-relative path when both `os.Getwd` and `filepath.Rel`
succeed, keeps the original string when either fails, and renders the
result right-aligned to a minimum width of 26 followed by a space and a
greater-than sign; in particular a caller equal to the working directory
plus `/sub/file.go:10` renders as `sub/file.go:10` right-aligned to 26
plus the trailer. -/
theorem C6_caller_formatting (wd : Option String)
    (rel : String → String → Option String) (cwd c r : String) :
    (wd = some cwd → rel cwd c = some r → 0 < strLen c →
      defaultCaller false wd rel (GoVal.str c) = padLeft 26 r ++ " >") ∧
    (wd = some cwd → rel cwd c = none →
      defaultCaller false wd rel (GoVal.str c) = padLeft 26 c ++ " >") ∧
    (wd = none →
      defaultCaller false wd rel (GoVal.str c) = padLeft 26 c ++ " >") ∧
    defaultCaller false (some cwd) relUnderBase (GoVal.str (cwd ++ "/sub/file.go:10")) =
      padLeft 26 "sub/file.go:10" ++ " >" := by
  refine ⟨?_, ?_, ?_, ?_⟩
  · intro hwd hrel hlen
    subst hwd
    simp [defaultCaller, resolveCaller, hrel, hlen]
  · intro hwd hrel
    subst hwd
    by_cases hlen : 0 < strLen c
    · simp [defaultCaller, resolveCaller, hrel, hlen]
    · simp [defaultCaller, resolveCaller, hlen]
  · intro hwd
    subst hwd
    by_cases hlen : 0 < strLen c
    · simp [defaultCaller, resolveCaller, hlen]
    · simp [defaultCaller, resolveCaller, hlen]
  · have hsplit : (cwd ++ "/sub/file.go:10" : String).data =
        cwd.data ++ '/' :: ("sub/file.go:10" : String).data := by
      rw [String.data_append]
    have hlen : 0 < strLen (cwd ++ "/sub/file.go:10") := by
      rw [strLen, hsplit]
      simp
    have hrel : relUnderBase cwd (cwd ++ "/sub/file.go:10") = some "sub/file.go:10" := by
      rw [relUnderBase, hsplit, take_len_succ_append, drop_len_succ_append, if_pos rfl]
    simp [defaultCaller, resolveCaller, hrel, hlen]

theorem C6_witness :
    (some ("/w" : String) = some "/w" ∧ relUnderBase "/w" "/w/a.go:1" = some "a.go:1" ∧
     0 < strLen "/w/a.go:1") ∧
    defaultCaller false (some "/w") relUnderBase (GoVal.str "/w/a.go:1") =
      padLeft 26 "a.go:1" ++ " >" :=
  ⟨⟨rfl, by decide, by decide⟩,
   (C6_caller_formatting (some "/w") relUnderBase "/w" "/w/a.go:1" "a.go:1").1
     rfl (by decide) (by decide)⟩

/-- Claim C7: with both console and file output disabled, construction
succeeds with an empty writer list, and the fan-out write over that empty
list is a no-op success returning the payload length, whatever behavior
the individual adapters would have had. -/
theorem C7_zero_sinks_noop (mkdirAll : Except String Unit) (config : NLogConfig)
    (hc : config.OutputConsole = false) (hf : config.OutputFile = false) :
    (NewLog mkdirAll config).handle.writers = [] ∧
    ∀ (f : ConsoleWriter → List UInt8 → Except String Nat) (p : List UInt8),
      multiWrite ((NewLog mkdirAll config).handle.writers.map f) p = Except.ok p.length := by
  have hw : (NewLog mkdirAll config).handle.writers = [] := by
    simp [NewLog, hc, hf]
  refine ⟨hw, fun f p => ?_⟩
  rw [hw]
  rfl

theorem C7_witness :
    (cfgOff.OutputConsole = false ∧ cfgOff.OutputFile = false) ∧
    ((NewLog (Except.ok ()) cfgOff).handle.writers = [] ∧
     multiWrite ((NewLog (Except.ok ()) cfgOff).handle.writers.map
       (fun _ _ => Except.error "boom")) [7, 7] = Except.ok 2) :=
  ⟨⟨rfl, rfl⟩,
   (C7_zero_sinks_noop (Except.ok ()) cfgOff rfl rfl).1,
   (C7_zero_sinks_noop (Except.ok ()) cfgOff rfl rfl).2 (fun _ _ => Except.error "boom") [7, 7]⟩

/-- Claim C8: for every configuration and every directory-creation
outcome, construction emits exactly one startup record, at info level
with message `logging configured`, containing all seven configuration
fields as structured key/value pairs. -/
theorem C8_startup_record_fields (mkdirAll : Except String Unit) (config : NLogConfig) :
    (NewLog mkdirAll config).startup = [startupRecord config] ∧
    (NewLog mkdirAll config).startup.length = 1 ∧
    (startupRecord config).level = "info" ∧
    (startupRecord config).msg = "logging configured" ∧
    ("fileLogging", FieldVal.boolV config.OutputFile) ∈ (startupRecord config).fields ∧
    ("consoleLogging", FieldVal.boolV config.OutputConsole) ∈ (startupRecord config).fields ∧
    ("logPath", FieldVal.strV config.LogPath) ∈ (startupRecord config).fields ∧
    ("logFile", FieldVal.strV config.LogFile) ∈ (startupRecord config).fields ∧
    ("maxSizeMB", FieldVal.intV config.MaxSize) ∈ (startupRecord config).fields ∧
    ("maxBackup", FieldVal.intV config.MaxBackups) ∈ (startupRecord config).fields ∧
    ("maxAgeInDays", FieldVal.intV config.MaxAge) ∈ (startupRecord config).fields := by
  refine ⟨rfl, rfl, rfl, rfl, ?_, ?_, ?_, ?_, ?_, ?_, ?_⟩ <;> simp [startupRecord]

/-- Claim C1 (code bug): when directory creation fails while file output
is enabled, the mkdir error is recorded through the fallback default
logger and construction completes, but the file sink is not omitted: the
file formatting adapter is still appended, now wrapping the nil writer
`newRollingFile` returned, ahead of the stderr adapter — the returned
handle is not console-only as the claim states. -/
theorem C1_newlog_mkdir_failure_keeps_nil_file_adapter :
    (NewLog (Except.error "permission denied") cfgFileOn).handle.writers =
      [{ out := none }, { out := some Sink.stderr }] ∧
    (NewLog (Except.error "permission denied") cfgFileOn).fallback =
      [{ level := "error",
         fields := [("error", FieldVal.strV "permission denied"),
                    ("path", FieldVal.strV "/data/logs")],
         msg := "can't create log directory" }] ∧
    (NewLog (Except.error "permission denied") cfgFileOn).startup =
      [startupRecord cfgFileOn] := by
  refine ⟨rfl, rfl, rfl⟩

/-- Claim C10: the timestamp formatter ignores its input — the record's
timestamp field — and renders the wall clock observed at the moment of
the call as `HH:MM:SS.mmm`, with the millisecond component always
present as exactly three digits. -/
theorem C10_timestamp_ignores_input (now : GoTime) (i j : GoVal) :
    defaultTimestamp now i = defaultTimestamp now j ∧
    defaultTimestamp now i =
      pad2 now.hour ++ ":" ++ pad2 now.minute ++ ":" ++ pad2 now.second ++ "." ++
        pad3 (now.unixMilli % 1000) ∧
    strLen (pad3 (now.unixMilli % 1000)) = 3 := by
  refine ⟨rfl, rfl, pad3_strLen _ (Nat.mod_lt _ (by decide))⟩

end NLib
